import Mathlib

/-!
Verification development for the cirqprojectq translation layer.

Half-turn parameters are embedded as exact rationals (the Python source uses
floats; all claim inputs are decimal literals with small denominators, so the
rational semantics is the intended real-number reading of the source).
Gate matrices are embedded over the complex numbers.
-/

/-! ## Angle canonicalization (cirq `value` module, used by `xmon_gates.py`)

`xmon_gates.py` canonicalizes every stored half-turn parameter with
`cirq.value.chosen_angle_to_canonical_half_turns(half_turns=..., rads=None, degs=None)`,
which (for a plain numeric `half_turns` argument) is
`canonicalize_half_turns(half_turns)`, i.e. `half_turns %= 2; if half_turns > 1:
half_turns -= 2`.  Python's `%` with positive divisor is `x - 2 * floor (x / 2)`. -/

/-- Python `x % 2` for a rational `x`: the representative of `x` modulo `2` in `[0, 2)`. -/
def pymod2 (x : ℚ) : ℚ := x - 2 * ⌊x / 2⌋

/-- cirq `value.canonicalize_half_turns`: map a half-turn count into `(-1, 1]`. -/
def canonicalize_half_turns (x : ℚ) : ℚ :=
  if 1 < pymod2 x then pymod2 x - 2 else pymod2 x

/-- cirq `value.chosen_angle_to_canonical_half_turns` with `rads=None, degs=None`:
just canonicalizes the given half-turn count. -/
def chosen_angle_to_canonical_half_turns (x : ℚ) : ℚ := canonicalize_half_turns x

/-! ## The native gate value objects (`xmon_gates.py`) -/

/-- `Exp11Gate` state: the stored (canonicalized) `half_turns` parameter. -/
structure Exp11Gate where
  half_turns : ℚ
deriving DecidableEq

/-- `Exp11Gate.__init__`: the `half_turns` setter canonicalizes into `(-1, 1]`. -/
def mkExp11Gate (half_turns : ℚ) : Exp11Gate :=
  ⟨chosen_angle_to_canonical_half_turns half_turns⟩

/-- `ExpZGate` state: the stored (canonicalized) `half_turns` parameter. -/
structure ExpZGate where
  half_turns : ℚ
deriving DecidableEq

/-- `ExpZGate.__init__`: the `half_turns` setter canonicalizes into `(-1, 1]`. -/
def mkExpZGate (half_turns : ℚ) : ExpZGate :=
  ⟨chosen_angle_to_canonical_half_turns half_turns⟩

/-- `ExpWGate` state: stored `half_turns` and `axis_half_turns` parameters. -/
structure ExpWGate where
  half_turns : ℚ
  axis_half_turns : ℚ
deriving DecidableEq

/-- `ExpWGate.__init__`: both setters canonicalize into `(-1, 1]`; then, if the
canonicalized axis is not in `[0, 1)`, the constructor re-canonicalizes to a
negative rotation around a positive axis
(`half_turns = canonicalize_half_turns(-half_turns)`,
`axis_half_turns = canonicalize_half_turns(axis_half_turns + 1)`). -/
def mkExpWGate (half_turns axis_half_turns : ℚ) : ExpWGate :=
  let h := chosen_angle_to_canonical_half_turns half_turns
  let a := chosen_angle_to_canonical_half_turns axis_half_turns
  if 0 ≤ a ∧ a < 1 then ⟨h, a⟩
  else ⟨canonicalize_half_turns (-h), canonicalize_half_turns (a + 1)⟩

/-- The half-turns grid used by the spec's testable properties and the
repository's parametrized tests: `{-1.5, -1, -.5, 0, .25, .3, 1, 1.5, 2}`. -/
def halfTurnsGrid : List ℚ := [-3/2, -1, -1/2, 0, 1/4, 3/10, 1, 3/2, 2]

/-! ## The spec's description of the XY-gate canonicalization (for claim C2)

`specCanonW` follows the spec's words: while the axis is outside `[0, 1)`,
negate the half-turns and add `1` (mod `2`) to the axis.  Two passes always
reach `[0, 1)` (the first pass lands in `[0, 2)`), so fuel `3` is ample. -/

/-- One step of the spec's θ-canonicalization: negate φ, set θ to `(θ + 1) mod 2`. -/
def specStepW (p : ℚ × ℚ) : ℚ × ℚ := (-p.1, pymod2 (p.2 + 1))

/-- Fuelled iteration of `specStepW` until the axis lies in `[0, 1)`. -/
def specCanonWAux : ℕ → ℚ × ℚ → ℚ × ℚ
  | 0, p => p
  | n + 1, p => if 0 ≤ p.2 ∧ p.2 < 1 then p else specCanonWAux n (specStepW p)

/-- The spec's canonicalized `(half_turns, axis_half_turns)` pair for the
XY-plane phase gate. -/
def specCanonW (half_turns axis_half_turns : ℚ) : ℚ × ℚ :=
  specCanonWAux 3 (half_turns, axis_half_turns)

/-! ## Elementary facts about the canonicalization -/

/-- The canonicalized half-turn count lies in `(-1, 1]`. -/
theorem canonicalize_mem (x : ℚ) :
    -1 < canonicalize_half_turns x ∧ canonicalize_half_turns x ≤ 1 := by
  have h1 : (⌊x / 2⌋ : ℚ) ≤ x / 2 := Int.floor_le _
  have h2 : x / 2 < ⌊x / 2⌋ + 1 := Int.lt_floor_add_one _
  unfold canonicalize_half_turns pymod2
  split <;> constructor <;> linarith

/-- Canonicalization changes the half-turn count by an even integer. -/
theorem canonicalize_eq_add_two_mul (x : ℚ) :
    ∃ k : ℤ, canonicalize_half_turns x = x + 2 * k := by
  unfold canonicalize_half_turns pymod2
  split
  · exact ⟨-(⌊x / 2⌋ + 1), by push_cast; ring⟩
  · exact ⟨-⌊x / 2⌋, by push_cast; ring⟩

/-! ## Gate matrices (`xmon_gates.py` `matrix` properties)

`angle` is the stored half-turn count times `π`, exactly as the `angle`
properties of the source compute it. -/

/-- `ExpZGate.angle`: rotation angle in radians. -/
noncomputable def ExpZGate.angle (g : ExpZGate) : ℝ := (g.half_turns : ℝ) * Real.pi

/-- `ExpZGate.matrix`:
`[[cos(angle/2) - i sin(angle/2), 0], [0, cos(angle/2) + i sin(angle/2)]]`. -/
noncomputable def ExpZGate.matrix (g : ExpZGate) : Matrix (Fin 2) (Fin 2) ℂ :=
  !![(Real.cos (g.angle / 2) : ℂ) - (Real.sin (g.angle / 2) : ℂ) * Complex.I, 0;
     0, (Real.cos (g.angle / 2) : ℂ) + (Real.sin (g.angle / 2) : ℂ) * Complex.I]

/-- The spec's closed form for the Z gate: `diag(e^{-iπc/2}, e^{iπc/2})` at the
canonicalized half-turn count `c`. -/
noncomputable def expZClaim (c : ℚ) : Matrix (Fin 2) (Fin 2) ℂ :=
  !![Complex.exp (-((Real.pi * (c : ℝ) / 2 : ℝ) : ℂ) * Complex.I), 0;
     0, Complex.exp (((Real.pi * (c : ℝ) / 2 : ℝ) : ℂ) * Complex.I)]

/-- `ExpWGate.angle`: rotation angle in radians. -/
noncomputable def ExpWGate.angle (g : ExpWGate) : ℝ := (g.half_turns : ℝ) * Real.pi

/-- `ExpWGate.axis_angle`: axis angle in radians. -/
noncomputable def ExpWGate.axis_angle (g : ExpWGate) : ℝ :=
  (g.axis_half_turns : ℝ) * Real.pi

/-- `ExpWGate.matrix`: with `W = exp(-i axis_angle)`, `c = cos(angle/2)`,
`s = sin(angle/2)`, the matrix is
`exp(i angle/2) * [[c, -i s W], [-i s conj(W), c]]`. -/
noncomputable def ExpWGate.matrix (g : ExpWGate) : Matrix (Fin 2) (Fin 2) ℂ :=
  Complex.exp (Complex.I / 2 * (g.angle : ℂ)) •
    !![(Real.cos (g.angle / 2) : ℂ),
       -Complex.I * (Real.sin (g.angle / 2) : ℂ) *
         Complex.exp (-Complex.I * (g.axis_angle : ℂ));
       -Complex.I * (Real.sin (g.angle / 2) : ℂ) *
         (starRingEnd ℂ) (Complex.exp (-Complex.I * (g.axis_angle : ℂ))),
       (Real.cos (g.angle / 2) : ℂ)]

/-- The spec's closed form for the XY-plane gate at half-turns `φ` and axis `θ`:
`e^{iπφ/2} [[cos(πφ/2), -i sin(πφ/2) e^{-iπθ}], [-i sin(πφ/2) e^{iπθ}, cos(πφ/2)]]`. -/
noncomputable def expWClaim (φ θ : ℚ) : Matrix (Fin 2) (Fin 2) ℂ :=
  Complex.exp (((Real.pi * (φ : ℝ) / 2 : ℝ) : ℂ) * Complex.I) •
    !![(Real.cos (Real.pi * (φ : ℝ) / 2) : ℂ),
       -Complex.I * (Real.sin (Real.pi * (φ : ℝ) / 2) : ℂ) *
         Complex.exp (-((Real.pi * (θ : ℝ) : ℝ) : ℂ) * Complex.I);
       -Complex.I * (Real.sin (Real.pi * (φ : ℝ) / 2) : ℂ) *
         Complex.exp (((Real.pi * (θ : ℝ) : ℝ) : ℂ) * Complex.I),
       (Real.cos (Real.pi * (φ : ℝ) / 2) : ℂ)]

/-- `Exp11Gate.angle`: rotation angle in radians. -/
noncomputable def Exp11Gate.angle (g : Exp11Gate) : ℝ := (g.half_turns : ℝ) * Real.pi

/-- `Exp11Gate.matrix`: the source's flat 4×4 `diag(1, 1, 1, exp(i angle))`,
indexed here by the two qubits' basis states `(c, t)` in the row order
`(0,0), (0,1), (1,0), (1,1)`. -/
noncomputable def Exp11Gate.matrix (g : Exp11Gate) :
    Matrix (Fin 2 × Fin 2) (Fin 2 × Fin 2) ℂ :=
  fun p q =>
    if p = q then (if p = (1, 1) then Complex.exp (Complex.I * (g.angle : ℂ)) else 1)
    else 0

/-! ## Trigonometric bridges between the source form and the spec's exp form -/

/-- Euler's identity for a negated argument. -/
theorem cexp_neg_mul_I (z : ℂ) :
    Complex.exp (-(z * Complex.I)) = Complex.cos z - Complex.sin z * Complex.I := by
  rw [show -(z * Complex.I) = -z * Complex.I by ring, Complex.exp_mul_I,
    Complex.cos_neg, Complex.sin_neg]
  ring

/-- The source's cos/sin form of the Z-gate matrix equals the spec's diagonal
exp form at the stored half-turn count. -/
theorem expZ_matrix_eq_claim (g : ExpZGate) : g.matrix = expZClaim g.half_turns := by
  have harg : g.angle / 2 = Real.pi * (g.half_turns : ℝ) / 2 := by
    unfold ExpZGate.angle; ring
  ext i j
  fin_cases i <;> fin_cases j <;>
    simp [ExpZGate.matrix, expZClaim, harg, Complex.exp_mul_I, cexp_neg_mul_I]

/-- The source's form of the W-gate matrix equals the spec's closed form at the
stored parameters. -/
theorem expW_matrix_eq_claim (g : ExpWGate) :
    g.matrix = expWClaim g.half_turns g.axis_half_turns := by
  have hpre : Complex.I / 2 * (g.angle : ℂ) =
      ((Real.pi * (g.half_turns : ℝ) / 2 : ℝ) : ℂ) * Complex.I := by
    unfold ExpWGate.angle; push_cast; ring
  have harg : g.angle / 2 = Real.pi * (g.half_turns : ℝ) / 2 := by
    unfold ExpWGate.angle; ring
  have hW : -Complex.I * (g.axis_angle : ℂ) =
      -((Real.pi * (g.axis_half_turns : ℝ) : ℝ) : ℂ) * Complex.I := by
    unfold ExpWGate.axis_angle; push_cast; ring
  have hWc : (starRingEnd ℂ) (Complex.exp (-Complex.I * (g.axis_angle : ℂ))) =
      Complex.exp (((Real.pi * (g.axis_half_turns : ℝ) : ℝ) : ℂ) * Complex.I) := by
    rw [← Complex.exp_conj]
    congr 1
    unfold ExpWGate.axis_angle
    simp [map_mul, Complex.conj_I, Complex.conj_ofReal]
    ring
  unfold ExpWGate.matrix expWClaim
  rw [hpre, harg, hWc, hW]

/-- The spec's closed form for the W gate is invariant under adding a full
period (2 half-turns) to the rotation parameter. -/
theorem expWClaim_add_two (φ θ : ℚ) : expWClaim (φ + 2) θ = expWClaim φ θ := by
  have harg : Real.pi * ((φ + 2 : ℚ) : ℝ) / 2 = Real.pi * (φ : ℝ) / 2 + Real.pi := by
    push_cast; ring
  have hexp : Complex.exp (((Real.pi * (φ : ℝ) / 2 + Real.pi : ℝ) : ℂ) * Complex.I) =
      -Complex.exp (((Real.pi * (φ : ℝ) / 2 : ℝ) : ℂ) * Complex.I) := by
    rw [show ((Real.pi * (φ : ℝ) / 2 + Real.pi : ℝ) : ℂ) * Complex.I =
        ((Real.pi * (φ : ℝ) / 2 : ℝ) : ℂ) * Complex.I + (Real.pi : ℂ) * Complex.I by
      push_cast; ring]
    rw [Complex.exp_add, Complex.exp_pi_mul_I]
    ring
  unfold expWClaim
  rw [harg, hexp, Real.cos_add_pi, Real.sin_add_pi]
  ext i j
  fin_cases i <;> fin_cases j <;> simp [Matrix.smul_apply]

/-- The spec's closed form for the W gate is invariant under even integer
shifts of the rotation parameter. -/
theorem expWClaim_add_int (φ θ : ℚ) (k : ℤ) : expWClaim (φ + 2 * k) θ = expWClaim φ θ := by
  induction k using Int.induction_on with
  | hz => norm_num
  | hp n ih =>
      have h : φ + 2 * ((n : ℤ) + 1 : ℤ) = (φ + 2 * (n : ℤ)) + 2 := by push_cast; ring
      rw [h, expWClaim_add_two, ih]
  | hn n ih =>
      have h : φ + 2 * (-(n : ℤ) - 1 : ℤ) + 2 = φ + 2 * (-(n : ℤ) : ℤ) := by
        push_cast; ring
      have h2 := expWClaim_add_two (φ + 2 * (-(n : ℤ) - 1 : ℤ)) θ
      rw [h] at h2
      rw [← h2]
      exact ih

/-- Canonicalizing the rotation parameter does not change the spec's closed
form for the W gate. -/
theorem expWClaim_canon (x θ : ℚ) :
    expWClaim (canonicalize_half_turns x) θ = expWClaim x θ := by
  obtain ⟨k, hk⟩ := canonicalize_eq_add_two_mul x
  rw [hk, expWClaim_add_int]

set_option maxHeartbeats 2000000 in
/-- On the test grid, the stored `ExpWGate` parameters coincide with the spec's
canonicalization procedure (the stored axis is the spec's axis; the stored
half-turn count is the canonical representative of the spec's half-turn count). -/
theorem expW_grid_stored : ∀ φ ∈ halfTurnsGrid, ∀ θ ∈ halfTurnsGrid,
    0 ≤ (mkExpWGate φ θ).axis_half_turns ∧ (mkExpWGate φ θ).axis_half_turns < 1 ∧
    (mkExpWGate φ θ).axis_half_turns = (specCanonW φ θ).2 ∧
    (mkExpWGate φ θ).half_turns = canonicalize_half_turns (specCanonW φ θ).1 := by
  intro φ hφ θ hθ
  fin_cases hφ <;> fin_cases hθ <;>
    norm_num [mkExpWGate, chosen_angle_to_canonical_half_turns, canonicalize_half_turns,
      pymod2, specCanonW, specCanonWAux, specStepW]

/-- C1: for every half-turns value φ on the test grid, `ExpZGate(φ)` stores the
canonical representative of φ — the value in `(-1, 1]` reached from φ by an even
integer shift — and the gate's matrix is `diag(e^{-iπcanon(φ)/2}, e^{iπcanon(φ)/2})`. -/
theorem claim_C1 (φ : ℚ) (hφ : φ ∈ halfTurnsGrid) :
    (mkExpZGate φ).half_turns = canonicalize_half_turns φ ∧
    (-1 < canonicalize_half_turns φ ∧ canonicalize_half_turns φ ≤ 1) ∧
    (∃ k : ℤ, canonicalize_half_turns φ = φ + 2 * k) ∧
    (mkExpZGate φ).matrix = expZClaim (canonicalize_half_turns φ) := by
  exact ⟨rfl, canonicalize_mem φ, canonicalize_eq_add_two_mul φ,
    expZ_matrix_eq_claim (mkExpZGate φ)⟩

/-- Witness for C1 at the grid point φ = -1.5. -/
theorem claim_C1_witness :
    (-3/2 : ℚ) ∈ halfTurnsGrid ∧
    ((mkExpZGate (-3/2)).half_turns = canonicalize_half_turns (-3/2) ∧
     (-1 < canonicalize_half_turns (-3/2 : ℚ) ∧ canonicalize_half_turns (-3/2 : ℚ) ≤ 1) ∧
     (∃ k : ℤ, canonicalize_half_turns (-3/2 : ℚ) = -3/2 + 2 * k) ∧
     (mkExpZGate (-3/2)).matrix = expZClaim (canonicalize_half_turns (-3/2))) :=
  ⟨by norm_num [halfTurnsGrid], claim_C1 (-3/2) (by norm_num [halfTurnsGrid])⟩

/-- C2: for every (φ, θ) pair on the test grid, the constructed `ExpWGate`
stores an axis in `[0, 1)` equal to the axis produced by the spec's rule
(negate φ and add 1 mod 2 to θ until θ ∈ [0, 1)), stores the canonical
representative of the spec's resulting half-turn count, and its matrix equals
the spec's closed form at the spec's canonicalized parameters. -/
theorem claim_C2 (φ θ : ℚ) (hφ : φ ∈ halfTurnsGrid) (hθ : θ ∈ halfTurnsGrid) :
    0 ≤ (mkExpWGate φ θ).axis_half_turns ∧ (mkExpWGate φ θ).axis_half_turns < 1 ∧
    (mkExpWGate φ θ).axis_half_turns = (specCanonW φ θ).2 ∧
    (mkExpWGate φ θ).half_turns = canonicalize_half_turns (specCanonW φ θ).1 ∧
    (mkExpWGate φ θ).matrix = expWClaim (specCanonW φ θ).1 (specCanonW φ θ).2 := by
  obtain ⟨h1, h2, h3, h4⟩ := expW_grid_stored φ hφ θ hθ
  refine ⟨h1, h2, h3, h4, ?_⟩
  rw [expW_matrix_eq_claim, h3, h4, expWClaim_canon]

/-- Witness for C2 at the grid point (φ, θ) = (1.5, -0.5). -/
theorem claim_C2_witness :
    (3/2 : ℚ) ∈ halfTurnsGrid ∧ (-1/2 : ℚ) ∈ halfTurnsGrid ∧
    (0 ≤ (mkExpWGate (3/2) (-1/2)).axis_half_turns ∧
     (mkExpWGate (3/2) (-1/2)).axis_half_turns < 1 ∧
     (mkExpWGate (3/2) (-1/2)).axis_half_turns = (specCanonW (3/2) (-1/2)).2 ∧
     (mkExpWGate (3/2) (-1/2)).half_turns =
       canonicalize_half_turns (specCanonW (3/2) (-1/2)).1 ∧
     (mkExpWGate (3/2) (-1/2)).matrix =
       expWClaim (specCanonW (3/2) (-1/2)).1 (specCanonW (3/2) (-1/2)).2) :=
  ⟨by norm_num [halfTurnsGrid], by norm_num [halfTurnsGrid],
    claim_C2 (3/2) (-1/2) (by norm_num [halfTurnsGrid]) (by norm_num [halfTurnsGrid])⟩

/-! ## Full-turn matrices (claim C8) -/

/-- A full turn of the two-qubit conditional-phase gate stores half-turns 0. -/
theorem mkExp11Gate_two : mkExp11Gate 2 = ⟨0⟩ := by
  unfold mkExp11Gate chosen_angle_to_canonical_half_turns canonicalize_half_turns pymod2
  norm_num

/-- A full turn of the Z-axis phase gate stores half-turns 0. -/
theorem mkExpZGate_two : mkExpZGate 2 = ⟨0⟩ := by
  unfold mkExpZGate chosen_angle_to_canonical_half_turns canonicalize_half_turns pymod2
  norm_num

/-- A full turn of the XY-plane phase gate (axis 0) stores parameters (0, 0). -/
theorem mkExpWGate_two : mkExpWGate 2 0 = ⟨0, 0⟩ := by
  unfold mkExpWGate chosen_angle_to_canonical_half_turns canonicalize_half_turns pymod2
  norm_num

/-- Counterexample for C8: the full-turn (half_turns = 2) Z-axis phase gate's
matrix is the identity, not minus the identity as the claim asserts for
single-qubit phase gates. -/
theorem claim_C8_counterexample :
    (mkExpZGate 2).matrix = 1 ∧ ¬((mkExpZGate 2).matrix = -1) := by
  have h1 : (mkExpZGate 2).matrix = 1 := by
    rw [mkExpZGate_two]
    ext i j
    fin_cases i <;> fin_cases j <;>
      simp [ExpZGate.matrix, ExpZGate.angle, Matrix.one_apply]
  refine ⟨h1, fun hc => ?_⟩
  rw [h1] at hc
  have h00 := congrFun (congrFun hc 0) 0
  simp [Matrix.one_apply, Matrix.neg_apply] at h00
  exact absurd h00 (by norm_num)

/-- C8 (amended): a full turn (half_turns = 2) of the two-qubit
conditional-phase gate has the identity matrix, and a full turn of a
single-qubit phase gate (Z-axis, or XY-plane with axis 0) also has the
identity matrix, because the constructor canonicalizes 2 to 0. -/
theorem claim_C8_amended :
    (mkExp11Gate 2).matrix = 1 ∧ (mkExpZGate 2).matrix = 1 ∧
    (mkExpWGate 2 0).matrix = 1 := by
  refine ⟨?_, ?_, ?_⟩
  · rw [mkExp11Gate_two]
    ext p q
    have hangle : ((Exp11Gate.angle ⟨0⟩ : ℝ) : ℂ) = 0 := by
      unfold Exp11Gate.angle; push_cast; ring
    by_cases h : p = q <;>
      simp [Exp11Gate.matrix, hangle, Matrix.one_apply, h]
  · rw [mkExpZGate_two]
    ext i j
    fin_cases i <;> fin_cases j <;>
      simp [ExpZGate.matrix, ExpZGate.angle, Matrix.one_apply]
  · rw [mkExpWGate_two]
    ext i j
    fin_cases i <;> fin_cases j <;>
      simp [ExpWGate.matrix, ExpWGate.angle, ExpWGate.axis_angle, Matrix.one_apply]

/-! ## Instruction model (`projectq` commands as seen by this repository)

Rotation-gate angles are stored as the rational `angle / π`, so that the
translation rules' `half_turns = cmd.gate.angle / cmath.pi` is the stored value. -/

/-- The Python classes that the rule registry uses as lookup keys
(`type(cmd.gate)` in `_rules_pq_to_cirq.py`). -/
inductive GateKind where
  | XGateK | YGateK | ZGateK | HGateK | SGateK
  | RxK | RyK | RzK
  | SwapGateK
  | BasicGateK
  | ExpWK | ExpZK | Exp11K
  | MeasureK | AllocateK | DeallocateK | BarrierK | FlushK
deriving DecidableEq

/-- A projectq gate occurring in a command.  `BasicGateM` is a plain
`BasicGate` instance exposing a `matrix` attribute (the payload). -/
inductive PQGate where
  | XGate | YGate | ZGate | HGate | SGate
  | Rx (angleOverPi : ℚ) | Ry (angleOverPi : ℚ) | Rz (angleOverPi : ℚ)
  | SwapGate
  | ExpWG (g : ExpWGate) | ExpZG (g : ExpZGate) | Exp11G (g : Exp11Gate)
  | BasicGateM (m : Matrix (Fin 2) (Fin 2) ℂ)
  | MeasureG | AllocateG | DeallocateG | BarrierG | FlushG

/-- The Python class (registry key) of a gate. -/
def PQGate.kind : PQGate → GateKind
  | .XGate => .XGateK
  | .YGate => .YGateK
  | .ZGate => .ZGateK
  | .HGate => .HGateK
  | .SGate => .SGateK
  | .Rx _ => .RxK
  | .Ry _ => .RyK
  | .Rz _ => .RzK
  | .SwapGate => .SwapGateK
  | .ExpWG _ => .ExpWK
  | .ExpZG _ => .ExpZK
  | .Exp11G _ => .Exp11K
  | .BasicGateM _ => .BasicGateK
  | .MeasureG => .MeasureK
  | .AllocateG => .AllocateK
  | .DeallocateG => .DeallocateK
  | .BarrierG => .BarrierK
  | .FlushG => .FlushK

/-- A projectq command: a gate, a tuple of target-qubit registers (each qubit
given by its integer id), and a list of control-qubit ids. -/
structure PQCmd where
  gate : PQGate
  qubits : List (List ℕ)
  control_qubits : List ℕ

/-- `projectq.meta.get_control_count`: the number of control qubits. -/
def get_control_count (cmd : PQCmd) : ℕ := cmd.control_qubits.length

/-- Python exceptions that the translation layer can raise. -/
inductive PyErr where
  | keyError (q : ℕ)
  | dictKeyError
  | attributeError
  | typeErrorBare
  | typeErrorGateNotKnown (k : GateKind)
  | assertionError
  | indexError
deriving DecidableEq

/-- A cirq gate produced by the translation rules. -/
inductive CirqGate where
  | RotXGate (half_turns : ℚ)
  | RotYGate (half_turns : ℚ)
  | RotZGate (half_turns : ℚ)
  | XC | YC | ZC | HC | SC
  | ExpWC (half_turns axis_half_turns : ℚ)
  | ExpZC (half_turns : ℚ)
  | Exp11C (half_turns : ℚ)
  | SingleQubitMatrixGate (m : Matrix (Fin 2) (Fin 2) ℂ)
  | ControlledGate (g : CirqGate)

/-- A cirq operation: a gate applied to a list of register qubits.  `pyNone`
models a translation function that falls through and returns Python `None`. -/
inductive CirqOp where
  | apply (gate : CirqGate) (qubits : List ℕ)
  | pyNone

/-- `mapping[qb.id]`: dictionary lookup, raising `KeyError` on a miss. -/
def lookupQ (mapping : List (ℕ × ℕ)) (q : ℕ) : Except PyErr ℕ :=
  match mapping.find? (fun p => p.1 == q) with
  | some p => .ok p.2
  | none => .error (.keyError q)

/-- `[mapping[qb.id] for qr in cmd.qubits for qb in qr]`. -/
def qbPositions (cmd : PQCmd) (mapping : List (ℕ × ℕ)) : Except PyErr (List ℕ) :=
  cmd.qubits.flatten.mapM (lookupQ mapping)

/-- `qubits[i]`: list indexing, raising `IndexError` when out of range. -/
def indexQ (qubits : List ℕ) (i : ℕ) : Except PyErr ℕ :=
  match qubits.get? i with
  | some q => .ok q
  | none => .error .indexError

/-! ## Translation rules (`common_rules_03x.py` and `xmon_rules_03x.py`) -/

/-- `common_rules_03x._rx_ry_rz`: translate a rotation gate; wrap in a
`ControlledGate` on `[*controls, *targets]` when controls are present. -/
def _rx_ry_rz (cmd : PQCmd) (mapping : List (ℕ × ℕ)) (qubits : List ℕ) :
    Except PyErr CirqOp := do
  let qb_pos ← qbPositions cmd mapping
  if qb_pos.length = 1 then
    let cirqGate ← (match cmd.gate with
      | .Rx a => Except.ok (CirqGate.RotXGate a)
      | .Ry a => Except.ok (CirqGate.RotYGate a)
      | .Rz a => Except.ok (CirqGate.RotZGate a)
      | _ => Except.error PyErr.dictKeyError)
    if 0 < get_control_count cmd then
      let ctrl_pos ← cmd.control_qubits.mapM (lookupQ mapping)
      let qs ← (ctrl_pos ++ qb_pos).mapM (indexQ qubits)
      return CirqOp.apply (CirqGate.ControlledGate cirqGate) qs
    else
      let qs ← qb_pos.mapM (indexQ qubits)
      return CirqOp.apply cirqGate qs
  else
    Except.error PyErr.assertionError

/-- `common_rules_03x._pauli_gates`. -/
def _pauli_gates (cmd : PQCmd) (mapping : List (ℕ × ℕ)) (qubits : List ℕ) :
    Except PyErr CirqOp := do
  let qb_pos ← qbPositions cmd mapping
  if qb_pos.length = 1 then
    let cirqGate ← (match cmd.gate with
      | .XGate => Except.ok CirqGate.XC
      | .YGate => Except.ok CirqGate.YC
      | .ZGate => Except.ok CirqGate.ZC
      | _ => Except.error PyErr.dictKeyError)
    if 0 < get_control_count cmd then
      let ctrl_pos ← cmd.control_qubits.mapM (lookupQ mapping)
      let qs ← (ctrl_pos ++ qb_pos).mapM (indexQ qubits)
      return CirqOp.apply (CirqGate.ControlledGate cirqGate) qs
    else
      let qs ← qb_pos.mapM (indexQ qubits)
      return CirqOp.apply cirqGate qs
  else
    Except.error PyErr.assertionError

/-- `common_rules_03x._h_s_gate`. -/
def _h_s_gate (cmd : PQCmd) (mapping : List (ℕ × ℕ)) (qubits : List ℕ) :
    Except PyErr CirqOp := do
  let qb_pos ← qbPositions cmd mapping
  if qb_pos.length = 1 then
    let cirqGate ← (match cmd.gate with
      | .HGate => Except.ok CirqGate.HC
      | .SGate => Except.ok CirqGate.SC
      | _ => Except.error PyErr.dictKeyError)
    if 0 < get_control_count cmd then
      let ctrl_pos ← cmd.control_qubits.mapM (lookupQ mapping)
      let qs ← (ctrl_pos ++ qb_pos).mapM (indexQ qubits)
      return CirqOp.apply (CirqGate.ControlledGate cirqGate) qs
    else
      let qs ← qb_pos.mapM (indexQ qubits)
      return CirqOp.apply cirqGate qs
  else
    Except.error PyErr.assertionError

/-- The `matrix` attribute of a gate.  Registry dispatch is by exact Python
type, so only plain `BasicGate` instances reach the generic matrix rule; their
payload is the attribute value. -/
def gateMatrix : PQGate → Option (Matrix (Fin 2) (Fin 2) ℂ)
  | .BasicGateM m => some m
  | _ => none

/-- A Python value passed to the `len` builtin. -/
inductive PyVal where
  | vint (n : ℕ)
  | vlist (l : List ℕ)

/-- Python `len`: integers have no length, so `len` of an int raises
`TypeError`. -/
def pyLen : PyVal → Except PyErr ℕ
  | .vint _ => .error .typeErrorBare
  | .vlist l => .ok l.length

/-- `common_rules_03x._gates_with_known_matrix`: both branch conditions start
with `len(get_control_count(cmd))`, applying `len` to the integer returned by
`get_control_count`. -/
def _gates_with_known_matrix (cmd : PQCmd) (mapping : List (ℕ × ℕ))
    (qubits : List ℕ) : Except PyErr CirqOp := do
  let n ← pyLen (.vint (get_control_count cmd))
  match gateMatrix cmd.gate with
  | some m =>
      if n = 0 then
        let qb_pos ← qbPositions cmd mapping
        let qs ← qb_pos.mapM (indexQ qubits)
        return CirqOp.apply (CirqGate.SingleQubitMatrixGate m) qs
      else
        let qb_pos ← qbPositions cmd mapping
        let ctrl_pos ← cmd.control_qubits.mapM (lookupQ mapping)
        let qs ← (qb_pos ++ ctrl_pos).mapM (indexQ qubits)
        return CirqOp.apply
          (CirqGate.ControlledGate (CirqGate.SingleQubitMatrixGate m)) qs
  | none => return CirqOp.pyNone

/-- `xmon_rules_03x._expWGate`. -/
def _expWGate (cmd : PQCmd) (mapping : List (ℕ × ℕ)) (qubits : List ℕ) :
    Except PyErr CirqOp := do
  let qb_pos ← qbPositions cmd mapping
  if qb_pos.length = 1 then
    let cirqGate ← (match cmd.gate with
      | .ExpWG g => Except.ok (CirqGate.ExpWC g.half_turns g.axis_half_turns)
      | _ => Except.error PyErr.attributeError)
    if 0 < get_control_count cmd then
      let ctrl_pos ← cmd.control_qubits.mapM (lookupQ mapping)
      let qs ← (ctrl_pos ++ qb_pos).mapM (indexQ qubits)
      return CirqOp.apply (CirqGate.ControlledGate cirqGate) qs
    else
      let qs ← qb_pos.mapM (indexQ qubits)
      return CirqOp.apply cirqGate qs
  else
    Except.error PyErr.assertionError

/-- `xmon_rules_03x._expZGate`. -/
def _expZGate (cmd : PQCmd) (mapping : List (ℕ × ℕ)) (qubits : List ℕ) :
    Except PyErr CirqOp := do
  let qb_pos ← qbPositions cmd mapping
  if qb_pos.length = 1 then
    let cirqGate ← (match cmd.gate with
      | .ExpZG g => Except.ok (CirqGate.ExpZC g.half_turns)
      | _ => Except.error PyErr.attributeError)
    if 0 < get_control_count cmd then
      let ctrl_pos ← cmd.control_qubits.mapM (lookupQ mapping)
      let qs ← (ctrl_pos ++ qb_pos).mapM (indexQ qubits)
      return CirqOp.apply (CirqGate.ControlledGate cirqGate) qs
    else
      let qs ← qb_pos.mapM (indexQ qubits)
      return CirqOp.apply cirqGate qs
  else
    Except.error PyErr.assertionError

/-- `xmon_rules_03x._exp11Gate`. -/
def _exp11Gate (cmd : PQCmd) (mapping : List (ℕ × ℕ)) (qubits : List ℕ) :
    Except PyErr CirqOp := do
  let qb_pos ← qbPositions cmd mapping
  if qb_pos.length = 2 then
    let cirqGate ← (match cmd.gate with
      | .Exp11G g => Except.ok (CirqGate.Exp11C g.half_turns)
      | _ => Except.error PyErr.attributeError)
    let qs ← qb_pos.mapM (indexQ qubits)
    return CirqOp.apply cirqGate qs
  else
    Except.error PyErr.assertionError

/-! ## The rule registry (`_rules_pq_to_cirq.py`) -/

/-- `Rule_pq_to_cirq`: the gate classes a rule applies to, and its translation
function. -/
structure Rule_pq_to_cirq where
  classes : List GateKind
  rule_fn : PQCmd → List (ℕ × ℕ) → List ℕ → Except PyErr CirqOp

/-- `common_rules_03x.Rx_Ry_Rz`. -/
def Rx_Ry_Rz : Rule_pq_to_cirq := ⟨[.RxK, .RyK, .RzK], _rx_ry_rz⟩

/-- `common_rules_03x.Paulis`. -/
def Paulis : Rule_pq_to_cirq := ⟨[.XGateK, .YGateK, .ZGateK], _pauli_gates⟩

/-- `common_rules_03x.H_S`. -/
def H_S : Rule_pq_to_cirq := ⟨[.HGateK, .SGateK], _h_s_gate⟩

/-- `common_rules_03x.Known_Matrix`. -/
def Known_Matrix : Rule_pq_to_cirq := ⟨[.BasicGateK], _gates_with_known_matrix⟩

/-- `xmon_rules_03x.EXP_W`. -/
def EXP_W : Rule_pq_to_cirq := ⟨[.ExpWK], _expWGate⟩

/-- `xmon_rules_03x.EXP_Z`. -/
def EXP_Z : Rule_pq_to_cirq := ⟨[.ExpZK], _expZGate⟩

/-- `xmon_rules_03x.EXP_11`. -/
def EXP_11 : Rule_pq_to_cirq := ⟨[.Exp11K], _exp11Gate⟩

/-- The rule list the `CIRQ` engine builds: `common_gates_ruleset`
(`[Rx_Ry_Rz, Paulis, H_S, Known_Matrix]`) followed by the xmon `ALL_RULES`
(`[EXP_W, EXP_Z, EXP_11]`), in registration order. -/
def engineRules : List Rule_pq_to_cirq :=
  [Rx_Ry_Rz, Paulis, H_S, Known_Matrix, EXP_W, EXP_Z, EXP_11]

/-- `Ruleset_pq_to_cirq._known_rules[k]`: the translation functions registered
for a gate kind, in registration order (`add_rule` appends). -/
def known_rules (rules : List Rule_pq_to_cirq) (k : GateKind) :
    List (PQCmd → List (ℕ × ℕ) → List ℕ → Except PyErr CirqOp) :=
  (rules.filter (fun r => k ∈ r.classes)).map Rule_pq_to_cirq.rule_fn

/-- `Ruleset_pq_to_cirq.translate`: invoke the first registered function for
the command's gate kind; raise `TypeError` when no rule is registered. -/
def Ruleset_pq_to_cirq.translate (rules : List Rule_pq_to_cirq) (cmd : PQCmd)
    (mapping : List (ℕ × ℕ)) (qubits : List ℕ) : Except PyErr CirqOp :=
  match known_rules rules cmd.gate.kind with
  | f :: _ => f cmd mapping qubits
  | [] => .error .typeErrorBare

/-! ## The streaming engine (`circ_engine.py`, class `CIRQ`) -/

/-- The engine's mutable session state: qubit mapping (an association list in
insertion order), its inverse, the pending-operation buffer, the committed
circuit, and the fresh-batch flag `_new`.  The committed circuit is modelled
as the ordered list of appended operations (cirq's EARLIEST insertion
strategy only affects time-slot layout, which no claim concerns). -/
structure CIRQState where
  mapping : List (ℕ × ℕ)
  inverse_mapping : List (ℕ × ℕ)
  operations : List CirqOp
  circuit : List CirqOp
  new : Bool

/-- The state right after `CIRQ.__init__` (which calls `_reset` and sets
`_new = True`): everything empty, no mapping pre-seeded. -/
def CIRQState.empty : CIRQState := ⟨[], [], [], [], true⟩

/-- `CIRQ._store`: clear the buffer on a fresh batch; create an identity
mapping entry on an allocation of an unmapped qubit (and nothing on a mapped
one); ignore deallocate/barrier; otherwise translate via the registry and
append, converting any exception into `TypeError("Gate ... not known")`.
Mutations made before an exception persist, as in Python. -/
def _store (qubits : List ℕ) (s : CIRQState) (cmd : PQCmd) :
    CIRQState × Option PyErr :=
  let s := if s.new then { s with new := false, operations := [] } else s
  match cmd.gate with
  | .AllocateG =>
      match cmd.qubits with
      | (qb :: _) :: _ =>
          if (s.mapping.find? (fun p => p.1 == qb)).isSome then (s, none)
          else ({ s with mapping := s.mapping ++ [(qb, qb)] }, none)
      | _ => (s, some .indexError)
  | .DeallocateG => (s, none)
  | .BarrierG => (s, none)
  | _ =>
      match Ruleset_pq_to_cirq.translate engineRules cmd s.mapping qubits with
      | .ok op => ({ s with operations := s.operations ++ [op] }, none)
      | .error _ => (s, some (.typeErrorGateNotKnown cmd.gate.kind))

/-- `CIRQ._run`: append the buffered operations to the circuit and clear the
buffer. -/
def _run (s : CIRQState) : CIRQState :=
  { s with circuit := s.circuit ++ s.operations, operations := [] }

/-- `CIRQ.receive`: process commands in order; a flush commits and re-arms the
fresh flag; any exception from `_store` aborts the call. -/
def receive (qubits : List ℕ) : CIRQState → List PQCmd → CIRQState × Option PyErr
  | s, [] => (s, none)
  | s, cmd :: rest =>
      if cmd.gate.kind = .FlushK then
        receive qubits { _run s with new := true } rest
      else
        match _store qubits s cmd with
        | (s2, none) => receive qubits s2 rest
        | (s2, some e) => (s2, some e)

/-- `CIRQ.is_available`: measure/allocate/deallocate/barrier are always
available; otherwise the gate's kind must be a registered registry key. -/
def is_available (cmd : PQCmd) : Bool :=
  match cmd.gate with
  | .MeasureG | .AllocateG | .DeallocateG | .BarrierG => true
  | g => !(known_rules engineRules g.kind).isEmpty

/-! ## Decomposition emissions (`xmon_decompositions.py`)

A rewriter is modelled by the list of gate applications it emits; the module
flag `CORRECT_PHASES` (read at each invocation) is the `correct_phases`
parameter.  `Ph(a)` applications record the rational `a / π`. -/

/-- One emitted gate application. -/
inductive EmitOp where
  | hadamardOp (qs : List ℕ)
  | expWOp (g : ExpWGate) (qs : List ℕ)
  | expZOp (g : ExpZGate) (qs : List ℕ)
  | exp11Op (g : Exp11Gate) (q1 q2 : ℕ)
  | phOp (angleOverPi : ℚ) (qs : List ℕ)
deriving DecidableEq

/-- `xmon_decompositions._recognize_H`: a Hadamard gate with no controls. -/
def _recognize_H (k : GateKind) (controlCount : ℕ) : Bool :=
  k == .HGateK && controlCount == 0

/-- `xmon_decompositions._decompose_H`: emit `ExpWGate(.5, .5)` then
`ExpZGate(1.)` on the command's qubits, plus `Ph(pi/4)` when `CORRECT_PHASES`
is set. -/
def _decompose_H (correct_phases : Bool) (qb : List ℕ) : List EmitOp :=
  [.expWOp (mkExpWGate (1/2) (1/2)) qb, .expZOp (mkExpZGate 1) qb] ++
    (if correct_phases then [.phOp (1/4) qb] else [])

/-- `xmon_decompositions._recognize_CNOT`: an X gate with exactly one control. -/
def _recognize_CNOT (k : GateKind) (controlCount : ℕ) : Bool :=
  k == .XGateK && controlCount == 1

/-- `xmon_decompositions._decompose_CNOT`: `H` on the target,
`Exp11Gate(half_turns=1.0)` on `(control, target)`, `H` on the target. -/
def _decompose_CNOT (ctrl tgt : ℕ) : List EmitOp :=
  [.hadamardOp [tgt], .exp11Op (mkExp11Gate 1) ctrl tgt, .hadamardOp [tgt]]

/-! ## Matrices for the CNOT decomposition (claim C3) -/

/-- The matrix of the projectq Hadamard gate: `(1/√2) [[1, 1], [1, -1]]`. -/
noncomputable def Hmat : Matrix (Fin 2) (Fin 2) ℂ :=
  (((Real.sqrt 2)⁻¹ : ℝ) : ℂ) • !![1, 1; 1, -1]

/-- Lift a single-qubit matrix to the target (second) qubit of a two-qubit
register indexed by basis states `(control, target)`. -/
def onTarget (M : Matrix (Fin 2) (Fin 2) ℂ) :
    Matrix (Fin 2 × Fin 2) (Fin 2 × Fin 2) ℂ :=
  fun p q => (if p.1 = q.1 then 1 else 0) * M p.2 q.2

/-- The standard CNOT matrix on basis states `(control, target)`: the target
is flipped exactly when the control is 1. -/
def CNOTmat : Matrix (Fin 2 × Fin 2) (Fin 2 × Fin 2) ℂ :=
  fun p q => if p.1 = q.1 ∧ p.2 = q.2 + q.1 then 1 else 0

/-- The half-turn-1 conditional-phase gate's matrix is `diag(1, 1, 1, -1)`. -/
theorem exp11_one_matrix : (mkExp11Gate 1).matrix =
    fun p q => if p = q then (if p = ((1 : Fin 2), (1 : Fin 2)) then -1 else 1) else 0 := by
  have h1 : mkExp11Gate 1 = ⟨1⟩ := by
    unfold mkExp11Gate chosen_angle_to_canonical_half_turns canonicalize_half_turns pymod2
    norm_num
  have hangle : ((mkExp11Gate 1).angle : ℂ) = (Real.pi : ℂ) := by
    rw [h1]; unfold Exp11Gate.angle; push_cast; ring
  funext p q
  unfold Exp11Gate.matrix
  rw [hangle, mul_comm Complex.I, Complex.exp_pi_mul_I]

set_option maxHeartbeats 1000000 in
/-- Conjugating the half-turn-1 conditional-phase gate by Hadamards on the
target qubit yields exactly the standard CNOT matrix. -/
theorem cnot_decomposition_matrix :
    onTarget Hmat * (mkExp11Gate 1).matrix * onTarget Hmat = CNOTmat := by
  have hs : (((Real.sqrt 2)⁻¹ : ℝ) : ℂ) * (((Real.sqrt 2)⁻¹ : ℝ) : ℂ) = 1 / 2 := by
    rw [← Complex.ofReal_mul, ← mul_inv, Real.mul_self_sqrt (by norm_num)]
    norm_num
  have h2 : (((Real.sqrt 2) : ℝ) : ℂ) ^ 2 = 2 := by
    rw [← Complex.ofReal_pow, Real.sq_sqrt (by norm_num : (0:ℝ) ≤ 2)]
    norm_num
  rw [exp11_one_matrix]
  ext p q
  obtain ⟨a, x⟩ := p
  obtain ⟨b, y⟩ := q
  fin_cases a <;> fin_cases b <;> fin_cases x <;> fin_cases y <;>
    simp [Matrix.mul_apply, Fintype.sum_prod_type, Fin.sum_univ_two, onTarget, Hmat,
      CNOTmat] <;>
    ring_nf <;>
    simp [hs] <;> ring_nf <;> norm_num [hs, h2]

/-- C3: the CNOT recognizer accepts an X gate with exactly one control; the
rewriter emits exactly Hadamard on the target, the half-turn-1 two-qubit
conditional-phase gate on (control, target), and Hadamard on the target; and
the composition of the three matrices equals the standard CNOT matrix up to a
global scalar phase of modulus 1 (in fact with phase exactly 1). -/
theorem claim_C3 (ctrl tgt : ℕ) :
    _recognize_CNOT (PQGate.XGate).kind (get_control_count ⟨.XGate, [[tgt]], [ctrl]⟩) = true ∧
    _decompose_CNOT ctrl tgt =
      [.hadamardOp [tgt], .exp11Op (mkExp11Gate 1) ctrl tgt, .hadamardOp [tgt]] ∧
    ∃ c : ℂ, Complex.abs c = 1 ∧
      onTarget Hmat * (mkExp11Gate 1).matrix * onTarget Hmat = c • CNOTmat := by
  refine ⟨rfl, rfl, 1, by simp, ?_⟩
  rw [one_smul]
  exact cnot_decomposition_matrix

/-- Witness for C3 with control qubit 0 and target qubit 1 (the spec's
scenario). -/
theorem claim_C3_witness :
    _recognize_CNOT (PQGate.XGate).kind (get_control_count ⟨.XGate, [[1]], [0]⟩) = true ∧
    _decompose_CNOT 0 1 =
      [.hadamardOp [1], .exp11Op (mkExp11Gate 1) 0 1, .hadamardOp [1]] ∧
    ∃ c : ℂ, Complex.abs c = 1 ∧
      onTarget Hmat * (mkExp11Gate 1).matrix * onTarget Hmat = c • CNOTmat :=
  claim_C3 0 1

/-- Counterexample for C6: with phase correction enabled, the Hadamard rewrite
emits a global-phase instruction of magnitude π/4 (`Ph(np.pi/4)`), not π/2 as
the claim asserts. -/
theorem claim_C6_counterexample :
    _decompose_H true [0] =
      [.expWOp (mkExpWGate (1/2) (1/2)) [0], .expZOp (mkExpZGate 1) [0],
       .phOp (1/4) [0]] ∧
    _decompose_H true [0] ≠
      [.expWOp (mkExpWGate (1/2) (1/2)) [0], .expZOp (mkExpZGate 1) [0],
       .phOp (1/2) [0]] := by
  refine ⟨rfl, fun h => ?_⟩
  rw [show _decompose_H true [0] =
      [.expWOp (mkExpWGate (1/2) (1/2)) [0], .expZOp (mkExpZGate 1) [0],
       .phOp (1/4) [0]] from rfl] at h
  injection h with h1 t1
  injection t1 with h2 t2
  injection t2 with h3 t3
  injection h3 with ha hb
  exact absurd ha (by norm_num)

/-- C6 (amended): a Hadamard command with zero controls is recognized and
rewritten to exactly `ExpWGate(.5, .5)` followed by `ExpZGate(1.)`; with phase
correction enabled, a compensating global-phase instruction of magnitude π/4
is additionally emitted. -/
theorem claim_C6_amended (qb : List ℕ) :
    _recognize_H (PQGate.HGate).kind 0 = true ∧
    _decompose_H false qb =
      [.expWOp (mkExpWGate (1/2) (1/2)) qb, .expZOp (mkExpZGate 1) qb] ∧
    _decompose_H true qb =
      [.expWOp (mkExpWGate (1/2) (1/2)) qb, .expZOp (mkExpZGate 1) qb,
       .phOp (1/4) qb] :=
  ⟨rfl, rfl, rfl⟩

/-- Witness for the amended C6 on qubit list `[2]`. -/
theorem claim_C6_amended_witness :
    _recognize_H (PQGate.HGate).kind 0 = true ∧
    _decompose_H false [2] =
      [.expWOp (mkExpWGate (1/2) (1/2)) [2], .expZOp (mkExpZGate 1) [2]] ∧
    _decompose_H true [2] =
      [.expWOp (mkExpWGate (1/2) (1/2)) [2], .expZOp (mkExpZGate 1) [2],
       .phOp (1/4) [2]] :=
  claim_C6_amended [2]

/-! ## Concrete commands for the engine scenarios -/

/-- The engine's qubit register: ten register qubits, indexed 0..9. -/
def qubitRegister10 : List ℕ := List.range 10

/-- An allocation command for the qubit with id `q`. -/
def allocCmd (q : ℕ) : PQCmd := ⟨.AllocateG, [[q]], []⟩

/-- An uncontrolled `Rz` command on qubit `q`; the parameter is `angle / π`. -/
def rzCmd (q : ℕ) (angleOverPi : ℚ) : PQCmd := ⟨.Rz angleOverPi, [[q]], []⟩

/-- A flush sentinel command. -/
def flushCmd : PQCmd := ⟨.FlushG, [], []⟩

/-- C4: on a fresh engine, `receive([Allocate(q=5), Rz(q=5, angle=π/2), Flush])`
creates the identity mapping entry 5 → 5, buffers exactly one translated
operation before the flush, and after the flush leaves the buffer empty with
the circuit holding exactly that operation; allocating an already-mapped
reference is a no-op on the mapping, not an error. -/
theorem claim_C4 :
    ((receive qubitRegister10 CIRQState.empty [allocCmd 5, rzCmd 5 (1/2)]).2 = none ∧
     (receive qubitRegister10 CIRQState.empty [allocCmd 5, rzCmd 5 (1/2)]).1.mapping =
       [(5, 5)] ∧
     (receive qubitRegister10 CIRQState.empty [allocCmd 5, rzCmd 5 (1/2)]).1.operations =
       [CirqOp.apply (CirqGate.RotZGate (1/2)) [5]]) ∧
    ((receive qubitRegister10 CIRQState.empty
        [allocCmd 5, rzCmd 5 (1/2), flushCmd]).2 = none ∧
     (receive qubitRegister10 CIRQState.empty
        [allocCmd 5, rzCmd 5 (1/2), flushCmd]).1.mapping = [(5, 5)] ∧
     (receive qubitRegister10 CIRQState.empty
        [allocCmd 5, rzCmd 5 (1/2), flushCmd]).1.operations = [] ∧
     (receive qubitRegister10 CIRQState.empty
        [allocCmd 5, rzCmd 5 (1/2), flushCmd]).1.circuit =
       [CirqOp.apply (CirqGate.RotZGate (1/2)) [5]]) ∧
    (∀ (s : CIRQState) (q : ℕ),
      (s.mapping.find? (fun p => p.1 == q)).isSome = true →
      (_store qubitRegister10 s (allocCmd q)).1.mapping = s.mapping ∧
      (_store qubitRegister10 s (allocCmd q)).2 = none) := by
  refine ⟨⟨rfl, rfl, rfl⟩, ⟨rfl, rfl, rfl, rfl⟩, ?_⟩
  intro s q h
  by_cases hn : s.new <;> simp [_store, allocCmd, hn, h]

/-- Witness for C4's no-op clause at a state whose mapping already holds 5. -/
theorem claim_C4_witness :
    ((CIRQState.mk [(5, 5)] [] [] [] true).mapping.find?
        (fun p => p.1 == 5)).isSome = true ∧
    ((_store qubitRegister10 (CIRQState.mk [(5, 5)] [] [] [] true)
        (allocCmd 5)).1.mapping = (CIRQState.mk [(5, 5)] [] [] [] true).mapping ∧
     (_store qubitRegister10 (CIRQState.mk [(5, 5)] [] [] [] true)
        (allocCmd 5)).2 = none) :=
  ⟨rfl, claim_C4.2.2 (CIRQState.mk [(5, 5)] [] [] [] true) 5 rfl⟩

/-- C5: a command whose gate kind has no registered translation function (and
which is not one of the allocate/deallocate/barrier/flush special commands)
makes `receive` fail with the typed unknown-gate error carrying the gate's
kind, and leaves the pending-operation buffer unchanged (in every reachable
state the buffer is empty whenever the fresh flag is set). -/
theorem claim_C5 (qs : List ℕ) (s : CIRQState) (cmd : PQCmd)
    (hk : known_rules engineRules cmd.gate.kind = [])
    (hg : cmd.gate.kind ∉ [GateKind.AllocateK, GateKind.DeallocateK,
      GateKind.BarrierK, GateKind.FlushK])
    (hinv : s.new = true → s.operations = []) :
    (receive qs s [cmd]).2 = some (.typeErrorGateNotKnown cmd.gate.kind) ∧
    (receive qs s [cmd]).1.operations = s.operations := by
  have h1 : cmd.gate.kind ≠ GateKind.AllocateK := by intro h; exact hg (by simp [h])
  have h2 : cmd.gate.kind ≠ GateKind.DeallocateK := by intro h; exact hg (by simp [h])
  have h3 : cmd.gate.kind ≠ GateKind.BarrierK := by intro h; exact hg (by simp [h])
  have hflush : ¬(cmd.gate.kind = GateKind.FlushK) := by intro h; exact hg (by simp [h])
  have htr : ∀ m, Ruleset_pq_to_cirq.translate engineRules cmd m qs =
      .error .typeErrorBare := by
    intro m
    unfold Ruleset_pq_to_cirq.translate
    rw [hk]
  have hd : _store qs s cmd =
      (let s2 := if s.new then { s with new := false, operations := [] } else s
       match Ruleset_pq_to_cirq.translate engineRules cmd s2.mapping qs with
       | .ok op => ({ s2 with operations := s2.operations ++ [op] }, none)
       | .error _ => (s2, some (.typeErrorGateNotKnown cmd.gate.kind))) := by
    rcases cmd with ⟨g, qbs, ctrls⟩
    cases g <;>
      first
        | rfl
        | (exact absurd rfl h1)
        | (exact absurd rfl h2)
        | (exact absurd rfl h3)
  constructor
  · simp only [receive, if_neg hflush]
    rw [hd]
    by_cases hn : s.new <;> simp [hn, htr]
  · simp only [receive, if_neg hflush]
    rw [hd]
    by_cases hn : s.new <;> simp [hn, htr]
    exact hinv hn

/-- Witness for C5: an unregistered `SwapGate` command on a fresh engine. -/
theorem claim_C5_witness :
    known_rules engineRules (PQCmd.mk .SwapGate [[0]] []).gate.kind = [] ∧
    (PQCmd.mk .SwapGate [[0]] []).gate.kind ∉ [GateKind.AllocateK,
      GateKind.DeallocateK, GateKind.BarrierK, GateKind.FlushK] ∧
    ((receive [0] CIRQState.empty [PQCmd.mk .SwapGate [[0]] []]).2 =
      some (.typeErrorGateNotKnown (PQCmd.mk .SwapGate [[0]] []).gate.kind) ∧
     (receive [0] CIRQState.empty [PQCmd.mk .SwapGate [[0]] []]).1.operations =
       CIRQState.empty.operations) :=
  ⟨rfl, by decide,
   claim_C5 [0] CIRQState.empty (PQCmd.mk .SwapGate [[0]] []) rfl (by decide)
     (fun _ => rfl)⟩

/-- Counterexample for C7: a gate command referencing an unmapped qubit makes
the engine's `receive` surface the unknown-gate `TypeError` (the bare `except`
in `CIRQ._store` converts the lookup failure), not a key-lookup error. -/
theorem claim_C7_counterexample :
    _rx_ry_rz (rzCmd 7 (1/2)) [] qubitRegister10 = .error (.keyError 7) ∧
    (receive qubitRegister10 CIRQState.empty [rzCmd 7 (1/2)]).2 =
      some (.typeErrorGateNotKnown .RzK) ∧
    some (PyErr.typeErrorGateNotKnown .RzK) ≠ some (PyErr.keyError 7) := by
  refine ⟨rfl, rfl, by decide⟩

/-- C7 (amended): at the translation-function level a mapping miss propagates
as a key-lookup failure to the caller of `translate`, but the streaming
engine's catch-all handler re-raises it as the unknown-gate `TypeError`, so
the engine's caller sees that error instead. -/
theorem claim_C7_amended (a : ℚ) (q : ℕ) (mapping : List (ℕ × ℕ)) (qs : List ℕ)
    (h : mapping.find? (fun p => p.1 == q) = none) :
    _rx_ry_rz ⟨.Rz a, [[q]], []⟩ mapping qs = .error (.keyError q) ∧
    ∀ s : CIRQState, s.mapping = mapping →
      (_store qs s ⟨.Rz a, [[q]], []⟩).2 = some (.typeErrorGateNotKnown .RzK) := by
  have h1 : lookupQ mapping q = .error (.keyError q) := by
    unfold lookupQ
    rw [h]
  have hfirst : _rx_ry_rz ⟨.Rz a, [[q]], []⟩ mapping qs = .error (.keyError q) := by
    unfold _rx_ry_rz qbPositions
    simp [List.mapM, List.mapM.loop, h1, Bind.bind, Except.bind]
  refine ⟨hfirst, ?_⟩
  intro s hs
  have htr : ∀ m, m = mapping →
      Ruleset_pq_to_cirq.translate engineRules ⟨.Rz a, [[q]], []⟩ m qs =
        .error (.keyError q) := by
    intro m hm
    show _rx_ry_rz ⟨.Rz a, [[q]], []⟩ m qs = _
    rw [hm]
    exact hfirst
  by_cases hn : s.new <;> simp [_store, hn, htr _ hs, PQGate.kind]

/-- Witness for the amended C7: an `Rz` on unmapped qubit 7 with an empty
mapping, on a fresh engine. -/
theorem claim_C7_amended_witness :
    ([] : List (ℕ × ℕ)).find? (fun p => p.1 == 7) = none ∧
    (_rx_ry_rz ⟨.Rz (1/2), [[7]], []⟩ [] qubitRegister10 = .error (.keyError 7) ∧
     (_store qubitRegister10 CIRQState.empty ⟨.Rz (1/2), [[7]], []⟩).2 =
       some (.typeErrorGateNotKnown .RzK)) :=
  ⟨rfl,
   (claim_C7_amended (1/2) 7 [] qubitRegister10 rfl).1,
   (claim_C7_amended (1/2) 7 [] qubitRegister10 rfl).2 CIRQState.empty rfl⟩

/-- C9 (code bug): the generic matrix-gate translation function applies the
`len` builtin to the integer returned by `get_control_count`, so it raises
`TypeError` on every input instead of returning the pass-through operation. -/
theorem claim_C9 :
    _gates_with_known_matrix (PQCmd.mk (.BasicGateM 1) [[0]] []) [(0, 0)]
      qubitRegister10 = .error .typeErrorBare ∧
    ∀ (cmd : PQCmd) (mapping : List (ℕ × ℕ)) (qs : List ℕ),
      _gates_with_known_matrix cmd mapping qs = .error .typeErrorBare :=
  ⟨rfl, fun _ _ _ => rfl⟩

/-- C10: a measure command is reported available by `is_available`, yet
`receive` routes it through the rule registry, which has no rule keyed to the
measure gate kind, so `receive` raises the unknown-gate error. -/
theorem claim_C10 (targets : List (List ℕ)) (ctrls : List ℕ) (s : CIRQState)
    (qs : List ℕ) :
    is_available ⟨.MeasureG, targets, ctrls⟩ = true ∧
    known_rules engineRules GateKind.MeasureK = [] ∧
    (receive qs s [⟨.MeasureG, targets, ctrls⟩]).2 =
      some (.typeErrorGateNotKnown .MeasureK) := by
  refine ⟨rfl, rfl, ?_⟩
  have htr : ∀ m, Ruleset_pq_to_cirq.translate engineRules
      ⟨.MeasureG, targets, ctrls⟩ m qs = .error .typeErrorBare := fun m => rfl
  have hflush : ¬((PQGate.MeasureG).kind = GateKind.FlushK) := by decide
  simp only [receive, if_neg hflush]
  by_cases hn : s.new <;> simp [_store, hn, htr, PQGate.kind]

/-- Witness for C10: a measure command on qubit 0 on a fresh engine. -/
theorem claim_C10_witness :
    is_available ⟨.MeasureG, [[0]], []⟩ = true ∧
    known_rules engineRules GateKind.MeasureK = [] ∧
    (receive [0] CIRQState.empty [⟨.MeasureG, [[0]], []⟩]).2 =
      some (.typeErrorGateNotKnown .MeasureK) :=
  claim_C10 [[0]] [] CIRQState.empty [0]
